import Mathlib

/-!
Verification of the retargeting engine of the alien-ar repository: the
bone resolver that maps semantic roles to named joints of a loaded rig,
the per-frame pose retargeter of the procedural avatar, and the temporal
smoothing / decay-to-neutral behavior.  JavaScript numbers are modelled
as real numbers; IEEE NaN, which arises in the elbow-bend computation at
degenerate input, is modelled by `Option ℝ` with `none` standing for NaN.
-/

namespace AlienAR

/-- Substring test on character lists: `leadsWith p l` is true when `p`
is an initial segment of `l` (embeds the stepwise comparison behind
JavaScript `String.prototype.includes`). -/
def leadsWith : List Char → List Char → Bool
  | [], _ => true
  | _ :: _, [] => false
  | a :: as, b :: bs => a == b && leadsWith as bs

/-- `hasSub pat hay` is true when `pat` occurs as a contiguous
subsequence of `hay`. -/
def hasSub (pat : List Char) : List Char → Bool
  | [] => leadsWith pat []
  | c :: t => leadsWith pat (c :: t) || hasSub pat t

/-- Embedding of JavaScript `hay.includes(pat)` (contiguous substring
containment). -/
def jsIncludes (hay pat : String) : Bool :=
  hasSub pat.toList hay.toList

/-- Embedding of JavaScript `name.toLowerCase()`: lower-case every
character (character-by-character map, which is what `toLowerCase` does
on the ASCII bone names involved). -/
def strToLower (s : String) : String :=
  String.mk (s.data.map Char.toLower)

/-- The semantic joint roles filled in by the bone-mapping pass of
`loadModel` (the keys assigned into the `bones` record). -/
inductive Role where
  | head | neck | upperSpine | spine
  | leftShoulder | leftUpperArm | leftForearm | leftHand
  | rightShoulder | rightUpperArm | rightForearm | rightHand
  deriving DecidableEq, Repr

/-- Classification of one bone name, transcribed from the
`if`/`else if` chain in the `model.traverse` callback of `loadModel`:
the name is lower-cased and tested with substring matches in the fixed
priority order of the source.  Returns the single role (if any) whose
record slot this bone is assigned to. -/
def classify (rawName : String) : Option Role :=
  let n := strToLower rawName
  if jsIncludes n "head" || jsIncludes n "skull" then some .head
  else if jsIncludes n "neck" then some .neck
  else if jsIncludes n "spine" || jsIncludes n "chest" || jsIncludes n "torso" then
    (if jsIncludes n "upper" || jsIncludes n "chest" || jsIncludes n "1" then
      some .upperSpine
    else
      some .spine)
  else if (jsIncludes n "left" || jsIncludes n "l_") &&
      (jsIncludes n "shoulder" || jsIncludes n "clavicle") then some .leftShoulder
  else if (jsIncludes n "left" || jsIncludes n "l_") &&
      jsIncludes n "arm" && !jsIncludes n "fore" then some .leftUpperArm
  else if (jsIncludes n "left" || jsIncludes n "l_") &&
      (jsIncludes n "forearm" || jsIncludes n "fore") then some .leftForearm
  else if (jsIncludes n "left" || jsIncludes n "l_") &&
      jsIncludes n "hand" then some .leftHand
  else if (jsIncludes n "right" || jsIncludes n "r_") &&
      (jsIncludes n "shoulder" || jsIncludes n "clavicle") then some .rightShoulder
  else if (jsIncludes n "right" || jsIncludes n "r_") &&
      jsIncludes n "arm" && !jsIncludes n "fore" then some .rightUpperArm
  else if (jsIncludes n "right" || jsIncludes n "r_") &&
      (jsIncludes n "forearm" || jsIncludes n "fore") then some .rightForearm
  else if (jsIncludes n "right" || jsIncludes n "r_") &&
      jsIncludes n "hand" then some .rightHand
  else none

/-- A node of a loaded model's object tree: a display name, whether the
node is a bone (`child instanceof THREE.Bone || child.type === 'Bone' ||
child.isBone`), and its ordered children. -/
inductive RigNode where
  | mk (name : String) (isBone : Bool) (children : List RigNode)

mutual

/-- Pre-order depth-first traversal of the object tree, as performed by
`THREE.Object3D.traverse` (callback on the node itself, then on each
child subtree in order).  Each visited node contributes its name and its
bone flag. -/
def preorder : RigNode → List (String × Bool)
  | .mk n b cs => (n, b) :: preorderList cs

def preorderList : List RigNode → List (String × Bool)
  | [] => []
  | t :: ts => preorder t ++ preorderList ts

end

/-- The `bones` record filled in by `loadModel`; a `none` slot means the
role was never assigned a joint.  Joints are identified by their display
name. -/
structure Bones where
  head : Option String := none
  neck : Option String := none
  upperSpine : Option String := none
  spine : Option String := none
  leftShoulder : Option String := none
  leftUpperArm : Option String := none
  leftForearm : Option String := none
  leftHand : Option String := none
  rightShoulder : Option String := none
  rightUpperArm : Option String := none
  rightForearm : Option String := none
  rightHand : Option String := none
  deriving DecidableEq, Repr

/-- Field accessor for `Bones` by role. -/
def Bones.get (b : Bones) : Role → Option String
  | .head => b.head
  | .neck => b.neck
  | .upperSpine => b.upperSpine
  | .spine => b.spine
  | .leftShoulder => b.leftShoulder
  | .leftUpperArm => b.leftUpperArm
  | .leftForearm => b.leftForearm
  | .leftHand => b.leftHand
  | .rightShoulder => b.rightShoulder
  | .rightUpperArm => b.rightUpperArm
  | .rightForearm => b.rightForearm
  | .rightHand => b.rightHand

/-- Overwrite the slot of one role with a joint name (the source's
`bones.head = child` style assignment: an unconditional overwrite). -/
def Bones.set (b : Bones) : Role → String → Bones
  | .head, j => { b with head := some j }
  | .neck, j => { b with neck := some j }
  | .upperSpine, j => { b with upperSpine := some j }
  | .spine, j => { b with spine := some j }
  | .leftShoulder, j => { b with leftShoulder := some j }
  | .leftUpperArm, j => { b with leftUpperArm := some j }
  | .leftForearm, j => { b with leftForearm := some j }
  | .leftHand, j => { b with leftHand := some j }
  | .rightShoulder, j => { b with rightShoulder := some j }
  | .rightUpperArm, j => { b with rightUpperArm := some j }
  | .rightForearm, j => { b with rightForearm := some j }
  | .rightHand, j => { b with rightHand := some j }

/-- One step of the traversal callback: non-bone nodes only receive
material/shadow tweaks (no role assignment); bone nodes are classified
and, when a role matches, assigned into the record, replacing any
previous occupant of that slot. -/
def resolveStep (b : Bones) (p : String × Bool) : Bones :=
  if p.2 then
    match classify p.1 with
    | some r => b.set r p.1
    | none => b
  else b

/-- The whole bone-resolution pass of `loadModel`: fold the traversal
callback over the pre-order node list, starting from the empty record. -/
def resolve (rig : RigNode) : Bones :=
  (preorder rig).foldl resolveStep {}

/-- `matchesRole r p` holds when traversal node `p` is a bone whose name
classifies to role `r`. -/
def matchesRole (r : Role) (p : String × Bool) : Bool :=
  p.2 && (classify p.1 == some r)

/-- The resolution rule as the claim states it (modelled from the
claim's wording for comparison with `resolve`): the FIRST joint in
pre-order traversal matching a role's keyword set wins that role, and
later matches for an already-filled role are ignored. -/
def claimFirstMatch (rig : RigNode) (r : Role) : Option String :=
  ((preorder rig).find? (matchesRole r)).map Prod.fst

/-! ## Shared numeric helpers (JavaScript `Math` functions over ℝ) -/

/-- Embedding of JavaScript `Math.atan2(y, x)` on real arguments.  The
piecewise definition agrees with the IEEE-754 function everywhere except
that the two signed zeros of floating point collapse to the single real
zero (the source never distinguishes them). -/
noncomputable def jsAtan2 (y x : ℝ) : ℝ :=
  if 0 < x then Real.arctan (y / x)
  else if x < 0 then
    (if 0 ≤ y then Real.arctan (y / x) + Real.pi else Real.arctan (y / x) - Real.pi)
  else
    (if 0 < y then Real.pi / 2 else if y < 0 then -(Real.pi / 2) else 0)

/-- The exponential-smoothing update written throughout the source as
`value += (target - value) * gain`. -/
noncomputable def smoothStep (p t g : ℝ) : ℝ := p + (t - p) * g

/-- `smoothStep` lifted to NaN-carrying values (`none` models IEEE NaN):
any NaN among the previous value or the target makes the result NaN,
exactly as `p + (t - p) * g` behaves in JavaScript. -/
noncomputable def optSmoothStep (p t : Option ℝ) (g : ℝ) : Option ℝ :=
  match p, t with
  | some p, some t => some (smoothStep p t g)
  | _, _ => none

/-! ## Procedural avatar retargeter (`RobustARMirror`, part_003) -/

/-- One detected keypoint (`{x, y, z, visibility?}`); the retargeting
code reads only `x` and `y`. -/
structure PLandmark where
  x : ℝ
  y : ℝ
  z : ℝ

/-- A pose frame: the landmark array indexed by the MediaPipe keypoint
numbering; `none` models an absent (`undefined`, falsy) entry. -/
def PoseFrame := Nat → Option PLandmark

/-- The mutable rotation state of the procedural avatar's bones that
`updateAvatarPose` and `resetAvatarToNeutral` read and write.  The two
elbow slots carry `Option ℝ` because the elbow-bend computation is the
only place where a NaN (modelled as `none`) can be produced and stored;
every other formula is NaN-free on real inputs. -/
structure AvatarState where
  headRotY : ℝ
  headRotX : ℝ
  torsoRotZ : ℝ
  leftArmRotZ : ℝ
  rightArmRotZ : ℝ
  leftElbowRotZ : Option ℝ
  rightElbowRotZ : Option ℝ
  leftHipRotZ : ℝ
  rightHipRotZ : ℝ

/-- Head yaw target: `noseX * 0.3` with `noseX = (x - 0.5) * 2`. -/
noncomputable def headYawTarget (n : PLandmark) : ℝ := ((n.x - 1/2) * 2) * (3/10)

/-- Head pitch target: `noseY * 0.2` with `noseY = -(y - 0.5) * 2`. -/
noncomputable def headPitchTarget (n : PLandmark) : ℝ := (-((n.y - 1/2)) * 2) * (1/5)

/-- Torso tilt target: `(rightShoulder.y - leftShoulder.y) * 3`. -/
noncomputable def torsoTiltTarget (l r : PLandmark) : ℝ := (r.y - l.y) * 3

/-- Left upper-arm rotation target from the shoulder→elbow vector:
`atan2(-deltaY, |deltaX|) - π/2`, negated when `deltaX > 0`. -/
noncomputable def leftArmTarget (s e : PLandmark) : ℝ :=
  let dX := e.x - s.x
  let dY := e.y - s.y
  let t := jsAtan2 (-dY) |dX| - Real.pi / 2
  if dX > 0 then -t else t

/-- Right upper-arm rotation target (mirrored): `atan2(-deltaY, |deltaX|)
- π/2`, negated when `deltaX < 0`, otherwise shifted by π. -/
noncomputable def rightArmTarget (s e : PLandmark) : ℝ :=
  let dX := e.x - s.x
  let dY := e.y - s.y
  let t := jsAtan2 (-dY) |dX| - Real.pi / 2
  if dX < 0 then -t else Real.pi + t

/-- The clamped cosine fed to `Math.acos` in the elbow-bend blocks,
with the two vector lengths exposed: `none` when either the upper-arm or
the forearm vector has zero length.  In that case the JavaScript code
divides 0 by 0 (a zero vector forces the dot product to 0 as well),
producing NaN, which `Math.min`, `Math.max` and `Math.acos` propagate. -/
noncomputable def elbowCosArg (s e w : PLandmark) : Option ℝ :=
  let ux := e.x - s.x
  let uy := e.y - s.y
  let fx := w.x - e.x
  let fy := w.y - e.y
  let dot := ux * fx + uy * fy
  let upperArmLength := Real.sqrt (ux * ux + uy * uy)
  let forearmLength := Real.sqrt (fx * fx + fy * fy)
  if upperArmLength * forearmLength = 0 then none
  else some (max (-1) (min 1 (dot / (upperArmLength * forearmLength))))

/-- Left elbow-bend target `-(π - acos(clamped))`; NaN (`none`) exactly
when a degenerate zero-length vector reaches the division. -/
noncomputable def leftElbowTarget (s e w : PLandmark) : Option ℝ :=
  (elbowCosArg s e w).map (fun c => -(Real.pi - Real.arccos c))

/-- Right elbow-bend target `π - acos(clamped)` (sign mirrored). -/
noncomputable def rightElbowTarget (s e w : PLandmark) : Option ℝ :=
  (elbowCosArg s e w).map (fun c => Real.pi - Real.arccos c)

/-- Hip tilt target: `(rightHip.y - leftHip.y) * 2`. -/
noncomputable def hipTiltTarget (l r : PLandmark) : ℝ := (r.y - l.y) * 2

/-- Leg stance target: `atan2(knee.x - hip.x, hip.y - knee.y)`. -/
noncomputable def legStanceTarget (hip knee : PLandmark) : ℝ :=
  jsAtan2 (knee.x - hip.x) (hip.y - knee.y)

/-- Head-tracking block of `updateAvatarPose` (guard: nose landmark 0
present). -/
noncomputable def headBlock (lm : PoseFrame) (st : AvatarState) : AvatarState :=
  match lm 0 with
  | some n =>
      { st with
        headRotY := smoothStep st.headRotY (headYawTarget n) (3/20)
        headRotX := smoothStep st.headRotX (headPitchTarget n) (3/20) }
  | none => st

/-- Torso-tilt block (guard: landmarks 11 and 12 present). -/
noncomputable def torsoBlock (lm : PoseFrame) (st : AvatarState) : AvatarState :=
  match lm 11, lm 12 with
  | some l, some r =>
      { st with torsoRotZ := smoothStep st.torsoRotZ (torsoTiltTarget l r) (3/20) }
  | _, _ => st

/-- Left upper-arm block (guard: landmarks 11 and 13 present). -/
noncomputable def leftArmBlock (lm : PoseFrame) (st : AvatarState) : AvatarState :=
  match lm 11, lm 13 with
  | some s, some e =>
      { st with leftArmRotZ := smoothStep st.leftArmRotZ (leftArmTarget s e) (1/5) }
  | _, _ => st

/-- Right upper-arm block (guard: landmarks 12 and 14 present). -/
noncomputable def rightArmBlock (lm : PoseFrame) (st : AvatarState) : AvatarState :=
  match lm 12, lm 14 with
  | some s, some e =>
      { st with rightArmRotZ := smoothStep st.rightArmRotZ (rightArmTarget s e) (1/5) }
  | _, _ => st

/-- Left elbow-bend block (guard: landmarks 11, 13 and 15 present). -/
noncomputable def leftElbowBlock (lm : PoseFrame) (st : AvatarState) : AvatarState :=
  match lm 11, lm 13, lm 15 with
  | some s, some e, some w =>
      { st with leftElbowRotZ := optSmoothStep st.leftElbowRotZ (leftElbowTarget s e w) (1/5) }
  | _, _, _ => st

/-- Right elbow-bend block (guard: landmarks 12, 14 and 16 present). -/
noncomputable def rightElbowBlock (lm : PoseFrame) (st : AvatarState) : AvatarState :=
  match lm 12, lm 14, lm 16 with
  | some s, some e, some w =>
      { st with rightElbowRotZ := optSmoothStep st.rightElbowRotZ (rightElbowTarget s e w) (1/5) }
  | _, _, _ => st

/-- Hip-tilt block (guard: landmarks 23 and 24 present); both hip joints
take the same tilt target. -/
noncomputable def hipTiltBlock (lm : PoseFrame) (st : AvatarState) : AvatarState :=
  match lm 23, lm 24 with
  | some l, some r =>
      { st with
        leftHipRotZ := smoothStep st.leftHipRotZ (hipTiltTarget l r) (1/10)
        rightHipRotZ := smoothStep st.rightHipRotZ (hipTiltTarget l r) (1/10) }
  | _, _ => st

/-- Left leg-stance block (guard: landmarks 23 and 25 present). -/
noncomputable def leftLegBlock (lm : PoseFrame) (st : AvatarState) : AvatarState :=
  match lm 23, lm 25 with
  | some h, some k =>
      { st with leftHipRotZ := smoothStep st.leftHipRotZ (legStanceTarget h k) (1/10) }
  | _, _ => st

/-- Right leg-stance block (guard: landmarks 24 and 26 present). -/
noncomputable def rightLegBlock (lm : PoseFrame) (st : AvatarState) : AvatarState :=
  match lm 24, lm 26 with
  | some h, some k =>
      { st with rightHipRotZ := smoothStep st.rightHipRotZ (legStanceTarget h k) (1/10) }
  | _, _ => st

/-- Embedding of `updateAvatarPose` of the `RobustARMirror` component:
the per-block landmark presence guards and the sequential `+=` smoothing
updates, in source order (head, torso, left/right upper arm, left/right
elbow bend, hip tilt, left/right leg stance; the hip joints are updated
twice, first by the tilt block and then by the stance blocks). -/
noncomputable def updateAvatarPose (lm : PoseFrame) (st : AvatarState) : AvatarState :=
  rightLegBlock lm (leftLegBlock lm (hipTiltBlock lm
    (rightElbowBlock lm (leftElbowBlock lm
      (rightArmBlock lm (leftArmBlock lm (torsoBlock lm (headBlock lm st))))))))

/-- Embedding of `resetAvatarToNeutral`: every tracked joint takes one
0.05-gain step toward its fixed neutral value (0 for head, torso and
hips; ±0.1 for the arms and elbows). -/
noncomputable def resetAvatarToNeutral (st : AvatarState) : AvatarState :=
  { headRotY := smoothStep st.headRotY 0 (1/20)
    headRotX := smoothStep st.headRotX 0 (1/20)
    torsoRotZ := smoothStep st.torsoRotZ 0 (1/20)
    leftArmRotZ := smoothStep st.leftArmRotZ (1/10) (1/20)
    rightArmRotZ := smoothStep st.rightArmRotZ (-(1/10)) (1/20)
    leftElbowRotZ := optSmoothStep st.leftElbowRotZ (some (-(1/10))) (1/20)
    rightElbowRotZ := optSmoothStep st.rightElbowRotZ (some (1/10)) (1/20)
    leftHipRotZ := smoothStep st.leftHipRotZ 0 (1/20)
    rightHipRotZ := smoothStep st.rightHipRotZ 0 (1/20) }

/-- The per-callback session state of the `onResults` handler: the
monotone `frameCount` counter and the avatar rotation state. -/
structure Session where
  frameCount : Nat
  avatar : AvatarState

/-- One `onResults` callback.  `frameCount` is incremented on every
callback.  A detected frame (`some lm`, nonempty landmark list) drives
`updateAvatarPose`; an undetected frame triggers `resetAvatarToNeutral`
only when the incremented counter is divisible by 10
(`frameCount % 10 === 0`), and otherwise leaves the avatar untouched. -/
noncomputable def onResultsStep (f : Option PoseFrame) (s : Session) : Session :=
  let n := s.frameCount + 1
  match f with
  | some lm => { frameCount := n, avatar := updateAvatarPose lm s.avatar }
  | none =>
      if n % 10 = 0 then { frameCount := n, avatar := resetAvatarToNeutral s.avatar }
      else { frameCount := n, avatar := s.avatar }

/-- A run of the detection loop over a list of callbacks. -/
noncomputable def runSession (fs : List (Option PoseFrame)) (s : Session) : Session :=
  fs.foldl (fun s f => onResultsStep f s) s

/-- A run of consecutive detected frames through `updateAvatarPose`. -/
noncomputable def runPose (fs : List PoseFrame) (st : AvatarState) : AvatarState :=
  fs.foldl (fun st lm => updateAvatarPose lm st) st

/-! ## `AvatarScene` retargeter (first component of part_004) -/

/-- The left-shoulder rotation assigned by the `AvatarScene` variant of
`updateAvatarPose` (direct assignment, no smoothing):
`atan2(shoulderToElbow.y, shoulderToElbow.x) + π/2`. -/
noncomputable def sceneLeftShoulderRotZ (s e : PLandmark) : ℝ :=
  jsAtan2 (e.y - s.y) (e.x - s.x) + Real.pi / 2

/-! ## Loaded-model retargeter (`ModelAvatarFilter.updateModelPose`) -/

/-- The local rotation of one rig joint (`bone.rotation`). -/
structure JRot where
  rx : ℝ
  ry : ℝ
  rz : ℝ

/-- The state touched by `updateModelPose`: the model root position and
roll, and the per-joint rotations of the loaded rig, keyed by joint
name. -/
structure MState where
  posX : ℝ
  posY : ℝ
  posZ : ℝ
  rotZ : ℝ
  joints : String → JRot

/-- Body-placement block of `updateModelPose` (guard: nose, both
shoulders and both hips present): root position from the remapped
shoulder midpoint and root roll from the shoulder line.  Touches only
the model root, never a rig joint. -/
noncomputable def bodyPlaceBlock (aspect : ℝ) (lm : PoseFrame) (st : MState) : MState :=
  match lm 0, lm 11, lm 12, lm 23, lm 24 with
  | some _, some lS, some rS, some _, some _ =>
      let scx := (lS.x + rS.x) / 2
      let scy := (lS.y + rS.y) / 2
      let scz := (lS.z + rS.z) / 2
      let x := (scx - 1/2) * (-8) * aspect
      let y := -(scy - 2/5) * 6
      let z := scz * (-4)
      let bodyTilt := jsAtan2 (rS.y - lS.y) (rS.x - lS.x)
      { st with
        posX := smoothStep st.posX x (3/20)
        posY := smoothStep st.posY y (3/20)
        posZ := smoothStep st.posZ z (3/20)
        rotZ := smoothStep st.rotZ bodyTilt (1/10) }
  | _, _, _, _, _ => st

/-- Head-orientation block of `updateModelPose` (guard: nose and both
shoulders present): writes yaw and pitch to `bones.head || bones.neck`,
or nothing when neither joint was resolved. -/
noncomputable def headOrientBlock (lm : PoseFrame) (b : Bones) (st : MState) : MState :=
  match lm 0, lm 11, lm 12 with
  | some nose, some lS, some rS =>
      let bcx := (lS.x + rS.x) / 2
      let bcy := (lS.y + rS.y) / 2 - 1/10
      let headTurnX := (nose.x - bcx) * 3
      let headTiltY := (nose.y - bcy) * 2
      (match b.head.or b.neck with
        | some j =>
            { st with
              joints := Function.update st.joints j
                { st.joints j with
                  ry := smoothStep (st.joints j).ry headTurnX (1/5)
                  rx := smoothStep (st.joints j).rx (-headTiltY) (1/5) } }
        | none => st)
  | _, _, _ => st

/-- Left-arm block of `updateModelPose` (guard: landmarks 11, 13, 15
present): writes three rotation axes to
`bones.leftShoulder || bones.leftUpperArm`. -/
noncomputable def leftArmModelBlock (lm : PoseFrame) (b : Bones) (st : MState) : MState :=
  match lm 11, lm 13, lm 15 with
  | some s, some e, some _ =>
      let dx := e.x - s.x
      let dy := e.y - s.y
      let dz := e.z - s.z
      (match b.leftShoulder.or b.leftUpperArm with
        | some j =>
            let rX := jsAtan2 (-dy) (Real.sqrt (dx ^ 2 + dz ^ 2))
            let rY := jsAtan2 dx dz
            let rZ := jsAtan2 dy dx
            { st with
              joints := Function.update st.joints j
                { rx := smoothStep (st.joints j).rx rX (3/10)
                  ry := smoothStep (st.joints j).ry rY (3/10)
                  rz := smoothStep (st.joints j).rz rZ (3/10) } }
        | none => st)
  | _, _, _ => st

/-- Right-arm block of `updateModelPose` (guard: landmarks 12, 14, 16
present; axis formulas mirrored): writes to
`bones.rightShoulder || bones.rightUpperArm`. -/
noncomputable def rightArmModelBlock (lm : PoseFrame) (b : Bones) (st : MState) : MState :=
  match lm 12, lm 14, lm 16 with
  | some s, some e, some _ =>
      let dx := e.x - s.x
      let dy := e.y - s.y
      let dz := e.z - s.z
      (match b.rightShoulder.or b.rightUpperArm with
        | some j =>
            let rX := jsAtan2 (-dy) (Real.sqrt (dx ^ 2 + dz ^ 2))
            let rY := jsAtan2 (-dx) dz
            let rZ := jsAtan2 dy (-dx)
            { st with
              joints := Function.update st.joints j
                { rx := smoothStep (st.joints j).rx rX (3/10)
                  ry := smoothStep (st.joints j).ry rY (3/10)
                  rz := smoothStep (st.joints j).rz rZ (3/10) } }
        | none => st)
  | _, _, _ => st

/-- Embedding of `updateModelPose`: body placement (root position and
roll), head orientation with the `bones.head || bones.neck` fallback,
and the per-side arm blocks with the `bones.xShoulder || bones.xUpperArm`
fallback, in source order.  `aspect` is the renderer's width-over-height
ratio.  A block whose landmarks are missing, or whose
`headBone`/`armBone` disjunction is `none`, writes nothing. -/
noncomputable def updateModelPose (aspect : ℝ) (lm : PoseFrame) (b : Bones)
    (st : MState) : MState :=
  rightArmModelBlock lm b (leftArmModelBlock lm b
    (headOrientBlock lm b (bodyPlaceBlock aspect lm st)))

/-! ## Auxiliary definitions for the theorems -/

/-- Iterated smoothing toward a constant target `T` with gain `g`. -/
noncomputable def smoothIter (T g : ℝ) : ℕ → ℝ → ℝ
  | 0, a => a
  | n + 1, a => smoothStep (smoothIter T g n a) T g

/-- One role's smoother state as the temporal-smoothing claim describes
it: the applied value together with the role's own missing-frame
counter. -/
structure ClaimRoleState where
  missing : ℕ
  applied : ℝ

/-- The per-role smoother step as the claim states it (modelled from
the claim's wording, for comparison with the code's behavior): a fresh
target resets the counter and smooths with the role gain; a no-target
frame increments the role's counter and, once the counter exceeds the
threshold of 10 frames, interpolates the applied value toward the
role's neutral pose with the slower 0.05 gain on each such frame. -/
noncomputable def claimRoleStep (g neutral : ℝ) (target : Option ℝ)
    (s : ClaimRoleState) : ClaimRoleState :=
  match target with
  | some t => { missing := 0, applied := smoothStep s.applied t g }
  | none =>
      let m := s.missing + 1
      if 10 < m then { missing := m, applied := smoothStep s.applied neutral (1/20) }
      else { missing := m, applied := s.applied }

/-- A run of the claim's per-role smoother over a target stream. -/
noncomputable def claimRoleRun (g neutral : ℝ) (ts : List (Option ℝ))
    (s : ClaimRoleState) : ClaimRoleState :=
  ts.foldl (fun s t => claimRoleStep g neutral t s) s

/-- A rig whose root and child both match the head keyword set. -/
def rigTwoHeads : RigNode := .mk "head_a" true [.mk "head_b" true []]

/-- A rig holding a literal `mixamorig:LeftForeArm` bone followed in
traversal order by a second bone that also matches the left-forearm
keyword set. -/
def rigTwoForearms : RigNode :=
  .mk "Armature" false [.mk "mixamorig:LeftForeArm" true [], .mk "zz_l_fore" true []]

/-- A rig whose only node is the literal `mixamorig:LeftForeArm` bone. -/
def rigMixamoOnly : RigNode := .mk "mixamorig:LeftForeArm" true []

/-- A rig with nodes but no bone nodes at all. -/
def rigNoBones : RigNode := .mk "Scene" false [.mk "AlienMesh" false []]

/-- The neutral initial avatar state (all rotation values 0, elbow
slots holding the real value 0, i.e. not NaN). -/
noncomputable def stNeutral : AvatarState :=
  { headRotY := 0, headRotX := 0, torsoRotZ := 0, leftArmRotZ := 0,
    rightArmRotZ := 0, leftElbowRotZ := some 0, rightElbowRotZ := some 0,
    leftHipRotZ := 0, rightHipRotZ := 0 }

/-- An avatar state with a non-neutral torso roll of 1. -/
noncomputable def stTorsoOne : AvatarState :=
  { stNeutral with torsoRotZ := 1 }

/-- A pose frame whose left shoulder and left elbow coincide at
(0.4, 0.4, 0) while the left wrist sits at (0.4, 0.6, 0): the
shoulder-to-elbow vector has zero length. -/
noncomputable def degenElbowFrame : PoseFrame := fun i =>
  if i = 11 then some ⟨2/5, 2/5, 0⟩
  else if i = 13 then some ⟨2/5, 2/5, 0⟩
  else if i = 15 then some ⟨2/5, 3/5, 0⟩
  else none

/-- A pose frame carrying only right shoulder (12) and right elbow (14)
landmarks; the right wrist (16) is missing. -/
noncomputable def noWristFrame : PoseFrame := fun i =>
  if i = 12 then some ⟨3/5, 2/5, 0⟩
  else if i = 14 then some ⟨3/5, 3/5, 0⟩
  else none

/-- A pose frame with the nose centered at (0.5, 0.5, 0). -/
noncomputable def noseCenterFrame : PoseFrame := fun i =>
  if i = 0 then some ⟨1/2, 1/2, 0⟩ else none

/-- A frame for the loaded-model retargeter: nose and both shoulders
present, arms absent. -/
noncomputable def headOnlyModelFrame : PoseFrame := fun i =>
  if i = 0 then some ⟨1/2, 3/10, 0⟩
  else if i = 11 then some ⟨2/5, 2/5, 0⟩
  else if i = 12 then some ⟨3/5, 2/5, 0⟩
  else none

/-- A frame for the loaded-model retargeter: left shoulder, elbow and
wrist present, everything else absent. -/
noncomputable def leftArmModelFrame : PoseFrame := fun i =>
  if i = 11 then some ⟨2/5, 2/5, 0⟩
  else if i = 13 then some ⟨2/5, 3/5, 1/10⟩
  else if i = 15 then some ⟨2/5, 4/5, 1/5⟩
  else none

/-- A bones record whose only assignment maps the neck role to a joint
named `"neckJoint"`. -/
def bNeckOnly : Bones := { neck := some "neckJoint" }

/-- A bones record whose only assignment maps the left upper-arm role
to a joint named `"armJoint"`. -/
def bLeftUpperArmOnly : Bones := { leftUpperArm := some "armJoint" }

/-- A model state with the root at the origin and every joint rotation
zero. -/
noncomputable def mStZero : MState :=
  { posX := 0, posY := 0, posZ := 0, rotZ := 0,
    joints := fun _ => { rx := 0, ry := 0, rz := 0 } }

/-! ## Bone-resolver lemmas -/

theorem Bones.get_set (b : Bones) (r r' : Role) (j : String) :
    (b.set r j).get r' = if r' = r then some j else b.get r' := by
  cases r <;> cases r' <;> simp [Bones.set, Bones.get]

theorem resolveStep_get (b : Bones) (p : String × Bool) (r : Role) :
    (resolveStep b p).get r =
      if matchesRole r p then some p.1 else b.get r := by
  rcases p with ⟨n, bn⟩
  cases bn
  · simp [resolveStep, matchesRole]
  · cases hc : classify n with
    | none => simp [resolveStep, matchesRole, hc]
    | some r0 =>
        have hstep : resolveStep b (n, true) = b.set r0 n := by
          simp [resolveStep, hc]
        rw [hstep, Bones.get_set]
        have hm : matchesRole r (n, true) = (r0 == r) := by
          simp [matchesRole, hc]
        by_cases h : r = r0
        · subst h; simp [hm]
        · have h' : r0 ≠ r := fun hh => h hh.symm
          simp [hm, h, h']

theorem resolve_foldl_get (l : List (String × Bool)) (b : Bones) (r : Role) :
    (l.foldl resolveStep b).get r =
      (match l.reverse.find? (matchesRole r) with
        | some q => some q.1
        | none => b.get r) := by
  induction l generalizing b with
  | nil => simp
  | cons p t ih =>
      simp only [List.foldl_cons, List.reverse_cons]
      rw [ih, List.find?_append]
      rcases hf : t.reverse.find? (matchesRole r) with _ | q
      · simp only [Option.none_or]
        rcases hm : matchesRole r p with _ | _ <;>
          simp [List.find?, hm, resolveStep_get]
      · simp [Option.or_some]

/-- The empty record leaves every role unassigned. -/
theorem emptyBones_get (r : Role) : (({} : Bones).get r) = none := by
  cases r <;> rfl

/-- Characterization of the resolver: each role ends up holding the
last bone in pre-order traversal whose name matches the role's keyword
set (the first match of the reversed traversal), because every later
match overwrites the slot. -/
theorem resolve_get (rig : RigNode) (r : Role) :
    (resolve rig).get r =
      ((preorder rig).reverse.find? (matchesRole r)).map Prod.fst := by
  unfold resolve
  rw [resolve_foldl_get]
  rcases h : (preorder rig).reverse.find? (matchesRole r) with _ | q
  · simpa using emptyBones_get r
  · rfl

/-! ## Procedural-avatar block lemmas -/

theorem headBlock_eq (lm : PoseFrame) (st : AvatarState) :
    headBlock lm st =
      { st with
        headRotY :=
          (match lm 0 with
            | some n => smoothStep st.headRotY (headYawTarget n) (3/20)
            | none => st.headRotY)
        headRotX :=
          (match lm 0 with
            | some n => smoothStep st.headRotX (headPitchTarget n) (3/20)
            | none => st.headRotX) } := by
  unfold headBlock
  rcases lm 0 with _ | n <;> rfl

theorem torsoBlock_eq (lm : PoseFrame) (st : AvatarState) :
    torsoBlock lm st =
      { st with
        torsoRotZ :=
          (match lm 11, lm 12 with
            | some l, some r => smoothStep st.torsoRotZ (torsoTiltTarget l r) (3/20)
            | _, _ => st.torsoRotZ) } := by
  unfold torsoBlock
  rcases lm 11 with _ | l <;> rcases lm 12 with _ | r <;> rfl

theorem leftArmBlock_eq (lm : PoseFrame) (st : AvatarState) :
    leftArmBlock lm st =
      { st with
        leftArmRotZ :=
          (match lm 11, lm 13 with
            | some s, some e => smoothStep st.leftArmRotZ (leftArmTarget s e) (1/5)
            | _, _ => st.leftArmRotZ) } := by
  unfold leftArmBlock
  rcases lm 11 with _ | s <;> rcases lm 13 with _ | e <;> rfl

theorem rightArmBlock_eq (lm : PoseFrame) (st : AvatarState) :
    rightArmBlock lm st =
      { st with
        rightArmRotZ :=
          (match lm 12, lm 14 with
            | some s, some e => smoothStep st.rightArmRotZ (rightArmTarget s e) (1/5)
            | _, _ => st.rightArmRotZ) } := by
  unfold rightArmBlock
  rcases lm 12 with _ | s <;> rcases lm 14 with _ | e <;> rfl

theorem leftElbowBlock_eq (lm : PoseFrame) (st : AvatarState) :
    leftElbowBlock lm st =
      { st with
        leftElbowRotZ :=
          (match lm 11, lm 13, lm 15 with
            | some s, some e, some w =>
                optSmoothStep st.leftElbowRotZ (leftElbowTarget s e w) (1/5)
            | _, _, _ => st.leftElbowRotZ) } := by
  unfold leftElbowBlock
  rcases lm 11 with _ | s <;> rcases lm 13 with _ | e <;> rcases lm 15 with _ | w <;> rfl

theorem rightElbowBlock_eq (lm : PoseFrame) (st : AvatarState) :
    rightElbowBlock lm st =
      { st with
        rightElbowRotZ :=
          (match lm 12, lm 14, lm 16 with
            | some s, some e, some w =>
                optSmoothStep st.rightElbowRotZ (rightElbowTarget s e w) (1/5)
            | _, _, _ => st.rightElbowRotZ) } := by
  unfold rightElbowBlock
  rcases lm 12 with _ | s <;> rcases lm 14 with _ | e <;> rcases lm 16 with _ | w <;> rfl

theorem hipTiltBlock_eq (lm : PoseFrame) (st : AvatarState) :
    hipTiltBlock lm st =
      { st with
        leftHipRotZ :=
          (match lm 23, lm 24 with
            | some l, some r => smoothStep st.leftHipRotZ (hipTiltTarget l r) (1/10)
            | _, _ => st.leftHipRotZ)
        rightHipRotZ :=
          (match lm 23, lm 24 with
            | some l, some r => smoothStep st.rightHipRotZ (hipTiltTarget l r) (1/10)
            | _, _ => st.rightHipRotZ) } := by
  unfold hipTiltBlock
  rcases lm 23 with _ | l <;> rcases lm 24 with _ | r <;> rfl

theorem leftLegBlock_eq (lm : PoseFrame) (st : AvatarState) :
    leftLegBlock lm st =
      { st with
        leftHipRotZ :=
          (match lm 23, lm 25 with
            | some h, some k => smoothStep st.leftHipRotZ (legStanceTarget h k) (1/10)
            | _, _ => st.leftHipRotZ) } := by
  unfold leftLegBlock
  rcases lm 23 with _ | h <;> rcases lm 25 with _ | k <;> rfl

theorem rightLegBlock_eq (lm : PoseFrame) (st : AvatarState) :
    rightLegBlock lm st =
      { st with
        rightHipRotZ :=
          (match lm 24, lm 26 with
            | some h, some k => smoothStep st.rightHipRotZ (legStanceTarget h k) (1/10)
            | _, _ => st.rightHipRotZ) } := by
  unfold rightLegBlock
  rcases lm 24 with _ | h <;> rcases lm 26 with _ | k <;> rfl

theorem updateAvatarPose_headRotY (lm : PoseFrame) (st : AvatarState) :
    (updateAvatarPose lm st).headRotY =
      (match lm 0 with
        | some n => smoothStep st.headRotY (headYawTarget n) (3/20)
        | none => st.headRotY) := by
  simp [updateAvatarPose, headBlock_eq, torsoBlock_eq, leftArmBlock_eq, rightArmBlock_eq,
    leftElbowBlock_eq, rightElbowBlock_eq, hipTiltBlock_eq, leftLegBlock_eq, rightLegBlock_eq]

theorem updateAvatarPose_headRotX (lm : PoseFrame) (st : AvatarState) :
    (updateAvatarPose lm st).headRotX =
      (match lm 0 with
        | some n => smoothStep st.headRotX (headPitchTarget n) (3/20)
        | none => st.headRotX) := by
  simp [updateAvatarPose, headBlock_eq, torsoBlock_eq, leftArmBlock_eq, rightArmBlock_eq,
    leftElbowBlock_eq, rightElbowBlock_eq, hipTiltBlock_eq, leftLegBlock_eq, rightLegBlock_eq]

theorem updateAvatarPose_torsoRotZ (lm : PoseFrame) (st : AvatarState) :
    (updateAvatarPose lm st).torsoRotZ =
      (match lm 11, lm 12 with
        | some l, some r => smoothStep st.torsoRotZ (torsoTiltTarget l r) (3/20)
        | _, _ => st.torsoRotZ) := by
  simp [updateAvatarPose, headBlock_eq, torsoBlock_eq, leftArmBlock_eq, rightArmBlock_eq,
    leftElbowBlock_eq, rightElbowBlock_eq, hipTiltBlock_eq, leftLegBlock_eq, rightLegBlock_eq]

theorem updateAvatarPose_rightArmRotZ (lm : PoseFrame) (st : AvatarState) :
    (updateAvatarPose lm st).rightArmRotZ =
      (match lm 12, lm 14 with
        | some s, some e => smoothStep st.rightArmRotZ (rightArmTarget s e) (1/5)
        | _, _ => st.rightArmRotZ) := by
  simp [updateAvatarPose, headBlock_eq, torsoBlock_eq, leftArmBlock_eq, rightArmBlock_eq,
    leftElbowBlock_eq, rightElbowBlock_eq, hipTiltBlock_eq, leftLegBlock_eq, rightLegBlock_eq]

theorem updateAvatarPose_leftElbowRotZ (lm : PoseFrame) (st : AvatarState) :
    (updateAvatarPose lm st).leftElbowRotZ =
      (match lm 11, lm 13, lm 15 with
        | some s, some e, some w =>
            optSmoothStep st.leftElbowRotZ (leftElbowTarget s e w) (1/5)
        | _, _, _ => st.leftElbowRotZ) := by
  simp [updateAvatarPose, headBlock_eq, torsoBlock_eq, leftArmBlock_eq, rightArmBlock_eq,
    leftElbowBlock_eq, rightElbowBlock_eq, hipTiltBlock_eq, leftLegBlock_eq, rightLegBlock_eq]

theorem updateAvatarPose_rightElbowRotZ (lm : PoseFrame) (st : AvatarState) :
    (updateAvatarPose lm st).rightElbowRotZ =
      (match lm 12, lm 14, lm 16 with
        | some s, some e, some w =>
            optSmoothStep st.rightElbowRotZ (rightElbowTarget s e w) (1/5)
        | _, _, _ => st.rightElbowRotZ) := by
  simp [updateAvatarPose, headBlock_eq, torsoBlock_eq, leftArmBlock_eq, rightArmBlock_eq,
    leftElbowBlock_eq, rightElbowBlock_eq, hipTiltBlock_eq, leftLegBlock_eq, rightLegBlock_eq]

/-! ## Smoothing-filter lemmas -/

/-- The smoothing step is a convex combination: a bound satisfied by
both the previous value and the target is preserved. -/
theorem abs_smoothStep_le {y t b g : ℝ} (hy : |y| ≤ b) (ht : |t| ≤ b)
    (h0 : 0 ≤ g) (h1 : g ≤ 1) : |smoothStep y t g| ≤ b := by
  have hrw : smoothStep y t g = (1 - g) * y + g * t := by
    unfold smoothStep; ring
  have hb : 0 ≤ b := le_trans (abs_nonneg y) hy
  calc |smoothStep y t g| = |(1 - g) * y + g * t| := by rw [hrw]
    _ ≤ |(1 - g) * y| + |g * t| := abs_add _ _
    _ = (1 - g) * |y| + g * |t| := by
        rw [abs_mul, abs_mul, abs_of_nonneg (by linarith : (0:ℝ) ≤ 1 - g),
          abs_of_nonneg h0]
    _ ≤ (1 - g) * b + g * b := by
        have := mul_le_mul_of_nonneg_left hy (by linarith : (0:ℝ) ≤ 1 - g)
        have := mul_le_mul_of_nonneg_left ht h0
        linarith
    _ = b := by ring

theorem smoothIter_sub_target (T g a : ℝ) (n : ℕ) :
    smoothIter T g (n + 1) a - T = (1 - g) * (smoothIter T g n a - T) := by
  show smoothStep (smoothIter T g n a) T g - T = _
  unfold smoothStep; ring

theorem abs_smoothIter_sub_target (T g a : ℝ) (hg1 : g < 1) :
    ∀ n : ℕ, |smoothIter T g n a - T| = (1 - g) ^ n * |a - T| := by
  intro n
  induction n with
  | zero => simp [smoothIter]
  | succ n ih =>
      rw [smoothIter_sub_target, abs_mul, ih,
        abs_of_nonneg (by linarith : (0:ℝ) ≤ 1 - g), pow_succ]
      ring

/-! ## Detection-loop (session) lemmas -/

theorem resetAvatarToNeutral_torso (st : AvatarState) :
    (resetAvatarToNeutral st).torsoRotZ = (19/20) * st.torsoRotZ := by
  simp only [resetAvatarToNeutral, smoothStep]; ring

theorem runSession_append (fs : List (Option PoseFrame)) (f : Option PoseFrame)
    (s : Session) :
    runSession (fs ++ [f]) s = onResultsStep f (runSession fs s) := by
  simp [runSession]

theorem onResultsStep_frameCount (f : Option PoseFrame) (s : Session) :
    (onResultsStep f s).frameCount = s.frameCount + 1 := by
  unfold onResultsStep
  rcases f with _ | lm
  · by_cases hd : (s.frameCount + 1) % 10 = 0 <;> simp [hd]
  · rfl

theorem onResultsStep_none_avatar (s : Session) :
    (onResultsStep none s).avatar =
      if (s.frameCount + 1) % 10 = 0 then resetAvatarToNeutral s.avatar
      else s.avatar := by
  unfold onResultsStep
  by_cases hd : (s.frameCount + 1) % 10 = 0 <;> simp [hd]

theorem runSession_none_frameCount (k : ℕ) (s : Session) :
    (runSession (List.replicate k none) s).frameCount = s.frameCount + k := by
  induction k with
  | zero => simp [runSession]
  | succ k ih =>
      rw [List.replicate_succ', runSession_append, onResultsStep_frameCount, ih]
      omega

theorem runSession_none_torso (k : ℕ) (st : AvatarState) :
    (runSession (List.replicate k none) { frameCount := 0, avatar := st }).avatar.torsoRotZ
      = (19/20) ^ (k / 10) * st.torsoRotZ := by
  induction k with
  | zero => simp [runSession]
  | succ k ih =>
      rw [List.replicate_succ', runSession_append, onResultsStep_none_avatar,
        runSession_none_frameCount]
      simp only [Nat.zero_add]
      by_cases hd : (k + 1) % 10 = 0
      · have hdiv : (k + 1) / 10 = k / 10 + 1 := by omega
        rw [if_pos hd, resetAvatarToNeutral_torso, ih, hdiv, pow_succ]
        ring
      · have hdiv : (k + 1) / 10 = k / 10 := by omega
        rw [if_neg hd, ih, hdiv]

/-! ## Loaded-model retargeter block lemmas -/

theorem bodyPlaceBlock_joints (aspect : ℝ) (lm : PoseFrame) (st : MState) :
    (bodyPlaceBlock aspect lm st).joints = st.joints := by
  unfold bodyPlaceBlock
  rcases lm 0 with _ | a <;> rcases lm 11 with _ | b <;> rcases lm 12 with _ | c <;>
    rcases lm 23 with _ | d <;> rcases lm 24 with _ | e <;> rfl

theorem headOrientBlock_none (lm : PoseFrame) (b : Bones) (st : MState)
    (hh : b.head = none) (hn : b.neck = none) :
    headOrientBlock lm b st = st := by
  unfold headOrientBlock
  rw [hh, hn]
  rcases lm 0 with _ | a <;> rcases lm 11 with _ | c <;> rcases lm 12 with _ | d <;> rfl

theorem headOrientBlock_skip (lm : PoseFrame) (b : Bones) (st : MState)
    (h0 : lm 0 = none) :
    headOrientBlock lm b st = st := by
  unfold headOrientBlock
  rw [h0]

theorem headOrientBlock_fallback (lm : PoseFrame) (b : Bones) (st : MState)
    (j : String) (nose lS rS : PLandmark)
    (hj : b.head.or b.neck = some j)
    (h0 : lm 0 = some nose) (h11 : lm 11 = some lS) (h12 : lm 12 = some rS) :
    headOrientBlock lm b st =
      { st with
        joints := Function.update st.joints j
          { st.joints j with
            ry := smoothStep (st.joints j).ry ((nose.x - (lS.x + rS.x) / 2) * 3) (1/5)
            rx := smoothStep (st.joints j).rx
              (-((nose.y - ((lS.y + rS.y) / 2 - 1/10)) * 2)) (1/5) } } := by
  unfold headOrientBlock
  rw [h0, h11, h12, hj]

theorem leftArmModelBlock_none (lm : PoseFrame) (b : Bones) (st : MState)
    (h1 : b.leftShoulder = none) (h2 : b.leftUpperArm = none) :
    leftArmModelBlock lm b st = st := by
  unfold leftArmModelBlock
  rw [h1, h2]
  rcases lm 11 with _ | a <;> rcases lm 13 with _ | c <;> rcases lm 15 with _ | d <;> rfl

theorem leftArmModelBlock_skip (lm : PoseFrame) (b : Bones) (st : MState)
    (h13 : lm 13 = none) :
    leftArmModelBlock lm b st = st := by
  unfold leftArmModelBlock
  rw [h13]
  rcases lm 11 with _ | a <;> rfl

theorem leftArmModelBlock_fallback (lm : PoseFrame) (b : Bones) (st : MState)
    (j : String) (s e w : PLandmark)
    (hj : b.leftShoulder.or b.leftUpperArm = some j)
    (h11 : lm 11 = some s) (h13 : lm 13 = some e) (h15 : lm 15 = some w) :
    leftArmModelBlock lm b st =
      { st with
        joints := Function.update st.joints j
          { rx := smoothStep (st.joints j).rx
              (jsAtan2 (-(e.y - s.y)) (Real.sqrt ((e.x - s.x) ^ 2 + (e.z - s.z) ^ 2))) (3/10)
            ry := smoothStep (st.joints j).ry (jsAtan2 (e.x - s.x) (e.z - s.z)) (3/10)
            rz := smoothStep (st.joints j).rz (jsAtan2 (e.y - s.y) (e.x - s.x)) (3/10) } } := by
  unfold leftArmModelBlock
  rw [h11, h13, h15, hj]

theorem rightArmModelBlock_none (lm : PoseFrame) (b : Bones) (st : MState)
    (h1 : b.rightShoulder = none) (h2 : b.rightUpperArm = none) :
    rightArmModelBlock lm b st = st := by
  unfold rightArmModelBlock
  rw [h1, h2]
  rcases lm 12 with _ | a <;> rcases lm 14 with _ | c <;> rcases lm 16 with _ | d <;> rfl

theorem rightArmModelBlock_skip (lm : PoseFrame) (b : Bones) (st : MState)
    (h14 : lm 14 = none) :
    rightArmModelBlock lm b st = st := by
  unfold rightArmModelBlock
  rw [h14]
  rcases lm 12 with _ | a <;> rfl

theorem rightArmModelBlock_fallback (lm : PoseFrame) (b : Bones) (st : MState)
    (j : String) (s e w : PLandmark)
    (hj : b.rightShoulder.or b.rightUpperArm = some j)
    (h12 : lm 12 = some s) (h14 : lm 14 = some e) (h16 : lm 16 = some w) :
    rightArmModelBlock lm b st =
      { st with
        joints := Function.update st.joints j
          { rx := smoothStep (st.joints j).rx
              (jsAtan2 (-(e.y - s.y)) (Real.sqrt ((e.x - s.x) ^ 2 + (e.z - s.z) ^ 2))) (3/10)
            ry := smoothStep (st.joints j).ry (jsAtan2 (-(e.x - s.x)) (e.z - s.z)) (3/10)
            rz := smoothStep (st.joints j).rz (jsAtan2 (e.y - s.y) (-(e.x - s.x))) (3/10) } } := by
  unfold rightArmModelBlock
  rw [h12, h14, h16, hj]

/-! ## Claim theorems -/

/-- C1 (counterexample): on a rig whose root and child are both named
with the head keyword, the code assigns the head role the LAST joint of
pre-order traversal (`"head_b"`), while the claim's first-match rule
would assign the first (`"head_a"`): the claim is false as stated. -/
theorem claim1_counterexample :
    (resolve rigTwoHeads).get .head = some "head_b" ∧
    claimFirstMatch rigTwoHeads .head = some "head_a" ∧
    (resolve rigTwoHeads).get .head ≠ claimFirstMatch rigTwoHeads .head := by
  refine ⟨by decide, by decide, by decide⟩

/-- C1 (amended): bone resolution assigns each semantic role the last
joint encountered in deterministic pre-order depth-first traversal whose
lower-cased name matches that role's keyword set — a later matching
joint replaces an earlier one, because each match overwrites the record
slot unconditionally. -/
theorem claim1_last_match_wins :
    ∀ (rig : RigNode) (r : Role),
      (resolve rig).get r =
        ((preorder rig).reverse.find? (matchesRole r)).map Prod.fst := by
  intro rig r
  exact resolve_get rig r

/-- C7 (counterexample): a rig containing a joint literally named
`"mixamorig:LeftForeArm"` does NOT always map the left-forearm role to
that joint: a later bone that also matches the left-forearm keyword set
(here `"zz_l_fore"`) overwrites the slot. -/
theorem claim7_counterexample :
    ("mixamorig:LeftForeArm", true) ∈ preorder rigTwoForearms ∧
    (resolve rigTwoForearms).get .leftForearm = some "zz_l_fore" ∧
    (resolve rigTwoForearms).get .leftForearm ≠ some "mixamorig:LeftForeArm" := by
  refine ⟨by decide, by decide, by decide⟩

/-- C7 (amended): for every rig containing a bone named
`"mixamorig:LeftForeArm"`, if no other bone name in the rig matches the
left-forearm keyword set (case-insensitive substring matching), bone
resolution maps the left-forearm role to that joint. -/
theorem claim7_mixamo_forearm :
    ∀ rig : RigNode,
      ("mixamorig:LeftForeArm", true) ∈ preorder rig →
      (∀ p ∈ preorder rig, matchesRole .leftForearm p = true →
        p.1 = "mixamorig:LeftForeArm") →
      (resolve rig).get .leftForearm = some "mixamorig:LeftForeArm" := by
  intro rig hmem honly
  rw [resolve_get]
  have hmatch : matchesRole .leftForearm ("mixamorig:LeftForeArm", true) = true := by
    decide
  rcases hf : (preorder rig).reverse.find? (matchesRole .leftForearm) with _ | q
  · exfalso
    have := List.find?_eq_none.mp hf ("mixamorig:LeftForeArm", true)
      (List.mem_reverse.mpr hmem)
    exact this hmatch
  · have hq : matchesRole .leftForearm q = true := List.find?_some hf
    have hqmem : q ∈ (preorder rig).reverse := List.mem_of_find?_eq_some hf
    have := honly q (List.mem_reverse.mp hqmem) hq
    simp [this]

/-- C7 (witness): on the one-bone rig holding exactly the literal
`"mixamorig:LeftForeArm"` joint, resolution maps left-forearm to it. -/
theorem claim7_witness :
    (resolve rigMixamoOnly).get .leftForearm = some "mixamorig:LeftForeArm" :=
  claim7_mixamo_forearm rigMixamoOnly (by decide) (by decide)

/-- C8: a rig with zero bone nodes resolves to the all-`None` mapping
(no error: `resolve` is total), and per-frame retargeting on that
mapping skips every role — the joint rotations are left untouched. -/
theorem claim8_zero_joints :
    ∀ rig : RigNode, (∀ p ∈ preorder rig, p.2 = false) →
      (∀ r : Role, (resolve rig).get r = none) ∧
      (∀ (aspect : ℝ) (lm : PoseFrame) (st : MState),
        (updateModelPose aspect lm (resolve rig) st).joints = st.joints) := by
  intro rig hnob
  have hall : ∀ r : Role, (resolve rig).get r = none := by
    intro r
    rw [resolve_get]
    have : (preorder rig).reverse.find? (matchesRole r) = none := by
      rw [List.find?_eq_none]
      intro p hp
      have := hnob p (List.mem_reverse.mp hp)
      simp [matchesRole, this]
    rw [this]; rfl
  refine ⟨hall, ?_⟩
  intro aspect lm st
  unfold updateModelPose
  rw [headOrientBlock_none _ _ _ (hall .head) (hall .neck),
    leftArmModelBlock_none _ _ _ (hall .leftShoulder) (hall .leftUpperArm),
    rightArmModelBlock_none _ _ _ (hall .rightShoulder) (hall .rightUpperArm),
    bodyPlaceBlock_joints]

/-- C8 (witness): concrete boneless rig, frame and state. -/
theorem claim8_witness :
    (∀ r : Role, (resolve rigNoBones).get r = none) ∧
    (updateModelPose 1 headOnlyModelFrame (resolve rigNoBones) mStZero).joints
      = mStZero.joints := by
  have h := claim8_zero_joints rigNoBones (by decide)
  exact ⟨h.1, h.2 1 headOnlyModelFrame mStZero⟩

/-- C2: refuted as stated — the elbow-bend computation has NO explicit
zero-length guard.  With the left shoulder and elbow coincident the
code divides 0 by 0 producing NaN (modelled `none`), and that NaN is
written into the elbow joint rotation, replacing the previous finite
value instead of skipping the role. -/
theorem claim2_nan_written :
    stNeutral.leftElbowRotZ = some 0 ∧
    leftElbowTarget ⟨2/5, 2/5, 0⟩ ⟨2/5, 2/5, 0⟩ ⟨2/5, 3/5, 0⟩ = none ∧
    (updateAvatarPose degenElbowFrame stNeutral).leftElbowRotZ = none := by
  have ht : leftElbowTarget ⟨2/5, 2/5, 0⟩ ⟨2/5, 2/5, 0⟩ ⟨2/5, 3/5, 0⟩ = none := by
    unfold leftElbowTarget elbowCosArg
    norm_num
  refine ⟨rfl, ht, ?_⟩
  rw [updateAvatarPose_leftElbowRotZ]
  have h11 : degenElbowFrame 11 = some ⟨2/5, 2/5, 0⟩ := rfl
  have h13 : degenElbowFrame 13 = some ⟨2/5, 2/5, 0⟩ := rfl
  have h15 : degenElbowFrame 15 = some ⟨2/5, 3/5, 0⟩ := rfl
  rw [h11, h13, h15]
  show optSmoothStep stNeutral.leftElbowRotZ
    (leftElbowTarget ⟨2/5, 2/5, 0⟩ ⟨2/5, 2/5, 0⟩ ⟨2/5, 3/5, 0⟩) (1/5) = none
  rw [ht]
  rfl

/-- C3 (counterexample): 20 consecutive undetected frames from a fresh
session: the code applies exactly two 0.05-gain decay steps to the
torso (at global frames 10 and 20), whereas the claim's per-role
missing counter (threshold 10) prescribes ten decay steps (frames 11
through 20); the resulting torso values differ. -/
theorem claim3_counterexample :
    (runSession (List.replicate 20 none)
      { frameCount := 0, avatar := stTorsoOne }).avatar.torsoRotZ = (19/20) ^ 2 ∧
    (claimRoleRun (3/20) 0 (List.replicate 20 none)
      { missing := 0, applied := 1 }).applied = (19/20) ^ 10 ∧
    ((19:ℝ)/20) ^ 2 ≠ ((19:ℝ)/20) ^ 10 := by
  refine ⟨?_, ?_, by norm_num⟩
  · have h := runSession_none_torso 20 stTorsoOne
    simpa [stTorsoOne, stNeutral] using h
  · norm_num [claimRoleRun, claimRoleStep, smoothStep, List.replicate]

/-- C3 (amended): there is no per-role missing counter.  Undetected
frames drive a single global frame counter that increments on every
callback and is never reset; a decay step (0.05 gain toward neutral,
shown here on the torso whose neutral is 0) is applied to all roles
only on undetected frames whose global index is divisible by 10, so k
consecutive undetected frames from a fresh session decay the torso
exactly ⌊k/10⌋ times; a role whose own landmarks are missing within a
detected frame is simply left unchanged, with no counter at all. -/
theorem claim3_global_decay :
    (∀ (k : ℕ) (st : AvatarState),
      (runSession (List.replicate k none)
        { frameCount := 0, avatar := st }).frameCount = k ∧
      (runSession (List.replicate k none)
        { frameCount := 0, avatar := st }).avatar.torsoRotZ
          = (19/20) ^ (k / 10) * st.torsoRotZ) ∧
    (∀ (lm : PoseFrame) (st : AvatarState), lm 11 = none →
      (updateAvatarPose lm st).torsoRotZ = st.torsoRotZ) := by
  constructor
  · intro k st
    refine ⟨?_, runSession_none_torso k st⟩
    simpa using runSession_none_frameCount k { frameCount := 0, avatar := st }
  · intro lm st h11
    rw [updateAvatarPose_torsoRotZ, h11]

/-- C3 (witness): a detected frame carrying only the nose leaves the
torso of a non-neutral avatar unchanged. -/
theorem claim3_witness :
    (updateAvatarPose noseCenterFrame stTorsoOne).torsoRotZ
      = stTorsoOne.torsoRotZ :=
  claim3_global_decay.2 noseCenterFrame stTorsoOne rfl

/-- C4: refuted as stated — the code is buggy relative to its own
comment ("When arm is down (deltaY > 0), rotation should be around 0").
For the left shoulder at (0.4, 0.4, 0) and elbow at (0.4, 0.6, 0)
(arm straight down) the `RobustARMirror` left-upper-arm target is
`atan2(-0.2, 0) - π/2 = -π`, and the `AvatarScene` variant assigns
`atan2(0.2, 0) + π/2 = π`; both are a half-turn away from the claimed
reference angle 0 (further than any tolerance below π ≈ 3.14). -/
theorem claim4_arm_down_target :
    leftArmTarget ⟨2/5, 2/5, 0⟩ ⟨2/5, 3/5, 0⟩ = -Real.pi ∧
    sceneLeftShoulderRotZ ⟨2/5, 2/5, 0⟩ ⟨2/5, 3/5, 0⟩ = Real.pi ∧
    3 < Real.pi := by
  refine ⟨?_, ?_, Real.pi_gt_three⟩
  · unfold leftArmTarget jsAtan2
    norm_num
    ring
  · unfold sceneLeftShoulderRotZ jsAtan2
    norm_num

/-- C5: with a gain strictly between 0 and 1 and a constant target, the
smoothing update is exactly `applied + (T - applied) * alpha`; the
distance to the target shrinks by the factor `(1 - alpha)` every frame
(hence equals `(1-alpha)^n` times the initial distance after n frames,
monotonically non-increasing, with no overshoot past the target), and
once within ε of the target it stays within ε; the head-yaw update of
`updateAvatarPose` is exactly such a step with gain 0.15. -/
theorem claim5_smoothing :
    ∀ (g T a : ℝ), 0 < g → g < 1 →
      (smoothStep a T g = a + (T - a) * g) ∧
      (∀ n : ℕ, |smoothIter T g (n + 1) a - T|
        = (1 - g) * |smoothIter T g n a - T|) ∧
      (∀ n : ℕ, |smoothIter T g n a - T| = (1 - g) ^ n * |a - T|) ∧
      (∀ n : ℕ, |smoothIter T g (n + 1) a - T| ≤ |smoothIter T g n a - T|) ∧
      (min a T ≤ smoothStep a T g ∧ smoothStep a T g ≤ max a T) ∧
      (∀ (ε : ℝ) (n m : ℕ), n ≤ m →
        |smoothIter T g n a - T| ≤ ε → |smoothIter T g m a - T| ≤ ε) ∧
      (∀ (lm : PoseFrame) (st : AvatarState) (nose : PLandmark),
        lm 0 = some nose →
        (updateAvatarPose lm st).headRotY
          = smoothStep st.headRotY (headYawTarget nose) (3/20)) := by
  intro g T a hg0 hg1
  have hg1' : (0:ℝ) ≤ 1 - g := by linarith
  have hstep : ∀ n : ℕ, |smoothIter T g (n + 1) a - T|
      = (1 - g) * |smoothIter T g n a - T| := by
    intro n
    rw [smoothIter_sub_target, abs_mul, abs_of_nonneg hg1']
  refine ⟨rfl, hstep, abs_smoothIter_sub_target T g a hg1, ?_, ?_, ?_, ?_⟩
  · intro n
    rw [hstep n]
    exact mul_le_of_le_one_left (abs_nonneg _) (by linarith)
  · unfold smoothStep
    rcases le_total a T with h | h
    · rw [min_eq_left h, max_eq_right h]
      constructor <;> nlinarith
    · rw [min_eq_right h, max_eq_left h]
      constructor <;> nlinarith
  · intro ε n m hnm hn
    have hm := abs_smoothIter_sub_target T g a hg1 m
    have hn' := abs_smoothIter_sub_target T g a hg1 n
    have hpow : (1 - g) ^ m ≤ (1 - g) ^ n :=
      pow_le_pow_of_le_one hg1' (by linarith) hnm
    have : |smoothIter T g m a - T| ≤ |smoothIter T g n a - T| := by
      rw [hm, hn']
      exact mul_le_mul_of_nonneg_right hpow (abs_nonneg _)
    linarith
  · intro lm st nose h0
    rw [updateAvatarPose_headRotY, h0]

/-- C5 (witness): gain 1/5, target 1, start 0. -/
theorem claim5_witness :
    smoothStep 0 1 (1/5) = 0 + (1 - 0) * (1/5) :=
  (claim5_smoothing (1/5) 1 0 (by norm_num) (by norm_num)).1

/-- C6: a frame with right shoulder and elbow present but right wrist
missing leaves the right elbow-bend rotation exactly unchanged (not
zeroed, not reset to neutral), while the right upper-arm role — whose
landmarks are present — is still updated; the embedding is total, so no
error is raised. -/
theorem claim6_missing_wrist :
    ∀ (lm : PoseFrame) (st : AvatarState) (s e : PLandmark),
      lm 12 = some s → lm 14 = some e → lm 16 = none →
      (updateAvatarPose lm st).rightElbowRotZ = st.rightElbowRotZ ∧
      (updateAvatarPose lm st).rightArmRotZ
        = smoothStep st.rightArmRotZ (rightArmTarget s e) (1/5) := by
  intro lm st s e h12 h14 h16
  constructor
  · rw [updateAvatarPose_rightElbowRotZ, h12, h14, h16]
  · rw [updateAvatarPose_rightArmRotZ, h12, h14]

/-- C6 (witness): the concrete wristless frame on the neutral state. -/
theorem claim6_witness :
    (updateAvatarPose noWristFrame stNeutral).rightElbowRotZ
      = stNeutral.rightElbowRotZ ∧
    (updateAvatarPose noWristFrame stNeutral).rightArmRotZ
      = smoothStep stNeutral.rightArmRotZ
          (rightArmTarget ⟨3/5, 2/5, 0⟩ ⟨3/5, 3/5, 0⟩) (1/5) :=
  claim6_missing_wrist noWristFrame stNeutral _ _ rfl rfl rfl

/-- The head-yaw target is bounded by 0.3 whenever the nose x-coordinate
lies in [0, 1]. -/
theorem headYawTarget_bound (n : PLandmark) (hx0 : 0 ≤ n.x) (hx1 : n.x ≤ 1) :
    |headYawTarget n| ≤ 3/10 := by
  unfold headYawTarget
  rw [abs_le]
  constructor <;> nlinarith

/-- The head-pitch target is bounded by 0.2 whenever the nose
y-coordinate lies in [0, 1]. -/
theorem headPitchTarget_bound (n : PLandmark) (hy0 : 0 ≤ n.y) (hy1 : n.y ≤ 1) :
    |headPitchTarget n| ≤ 1/5 := by
  unfold headPitchTarget
  rw [abs_le]
  constructor <;> nlinarith

/-- One `updateAvatarPose` step preserves the head yaw/pitch bounds. -/
theorem updateAvatarPose_head_bounds (lm : PoseFrame) (st : AvatarState)
    (hlm : ∀ n : PLandmark, lm 0 = some n →
      0 ≤ n.x ∧ n.x ≤ 1 ∧ 0 ≤ n.y ∧ n.y ≤ 1)
    (hy : |st.headRotY| ≤ 3/10) (hx : |st.headRotX| ≤ 1/5) :
    |(updateAvatarPose lm st).headRotY| ≤ 3/10 ∧
    |(updateAvatarPose lm st).headRotX| ≤ 1/5 := by
  rw [updateAvatarPose_headRotY, updateAvatarPose_headRotX]
  rcases h0 : lm 0 with _ | n
  · exact ⟨hy, hx⟩
  · obtain ⟨hx0, hx1, hy0, hy1⟩ := hlm n h0
    exact ⟨abs_smoothStep_le hy (headYawTarget_bound n hx0 hx1)
        (by norm_num) (by norm_num),
      abs_smoothStep_le hx (headPitchTarget_bound n hy0 hy1)
        (by norm_num) (by norm_num)⟩

/-- C9: each head update is a convex step from the current rotation
toward a target bounded by gain times the re-centered nose offset, so
over every sequence of pose frames whose nose coordinates lie in [0, 1]
the head yaw stays within [-0.3, 0.3] and the head pitch within
[-0.2, 0.2] (starting from any state satisfying the bounds, in
particular the neutral pose). -/
theorem claim9_head_bounds :
    ∀ (fs : List PoseFrame) (st : AvatarState),
      (∀ lm ∈ fs, ∀ n : PLandmark, lm 0 = some n →
        0 ≤ n.x ∧ n.x ≤ 1 ∧ 0 ≤ n.y ∧ n.y ≤ 1) →
      |st.headRotY| ≤ 3/10 → |st.headRotX| ≤ 1/5 →
      |(runPose fs st).headRotY| ≤ 3/10 ∧ |(runPose fs st).headRotX| ≤ 1/5 := by
  intro fs
  induction fs with
  | nil =>
      intro st _ hy hx
      exact ⟨hy, hx⟩
  | cons lm fs ih =>
      intro st hfs hy hx
      have hstep := updateAvatarPose_head_bounds lm st
        (hfs lm (List.mem_cons_self lm fs)) hy hx
      have := ih (updateAvatarPose lm st)
        (fun l hl => hfs l (List.mem_cons_of_mem lm hl)) hstep.1 hstep.2
      simpa [runPose] using this

/-- C9 (witness): a single centered-nose frame from the neutral pose. -/
theorem claim9_witness :
    |(runPose [noseCenterFrame] stNeutral).headRotY| ≤ 3/10 ∧
    |(runPose [noseCenterFrame] stNeutral).headRotX| ≤ 1/5 :=
  claim9_head_bounds [noseCenterFrame] stNeutral
    (by
      intro lm hl n hn
      rw [List.mem_singleton] at hl
      subst hl
      have h : some (⟨1/2, 1/2, 0⟩ : PLandmark) = some n := by
        simpa [noseCenterFrame] using hn
      cases h
      norm_num)
    (by norm_num [stNeutral])
    (by norm_num [stNeutral])

/-- C10: in the loaded-model retargeter, the head-orientation rotations
go to `bones.head || bones.neck` — so with head unresolved and neck
resolved they are applied to the neck joint; with neither resolved (and
no arm block active) the joints are untouched; per side, the arm
rotations go to `bones.xShoulder || bones.xUpperArm`, falling back to
the upper-arm joint when the shoulder is unresolved. -/
theorem claim10_fallbacks :
    (∀ (aspect : ℝ) (lm : PoseFrame) (b : Bones) (st : MState) (j : String)
        (nose lS rS : PLandmark),
      b.head = none → b.neck = some j →
      lm 0 = some nose → lm 11 = some lS → lm 12 = some rS →
      lm 13 = none → lm 14 = none →
      (updateModelPose aspect lm b st).joints =
        Function.update st.joints j
          { st.joints j with
            ry := smoothStep (st.joints j).ry
              ((nose.x - (lS.x + rS.x) / 2) * 3) (1/5)
            rx := smoothStep (st.joints j).rx
              (-((nose.y - ((lS.y + rS.y) / 2 - 1/10)) * 2)) (1/5) }) ∧
    (∀ (aspect : ℝ) (lm : PoseFrame) (b : Bones) (st : MState),
      b.head = none → b.neck = none → lm 13 = none → lm 14 = none →
      (updateModelPose aspect lm b st).joints = st.joints) ∧
    (∀ (aspect : ℝ) (lm : PoseFrame) (b : Bones) (st : MState) (j : String)
        (s e w : PLandmark),
      b.leftShoulder = none → b.leftUpperArm = some j →
      lm 0 = none → lm 14 = none →
      lm 11 = some s → lm 13 = some e → lm 15 = some w →
      (updateModelPose aspect lm b st).joints =
        Function.update st.joints j
          { rx := smoothStep (st.joints j).rx
              (jsAtan2 (-(e.y - s.y))
                (Real.sqrt ((e.x - s.x) ^ 2 + (e.z - s.z) ^ 2))) (3/10)
            ry := smoothStep (st.joints j).ry
              (jsAtan2 (e.x - s.x) (e.z - s.z)) (3/10)
            rz := smoothStep (st.joints j).rz
              (jsAtan2 (e.y - s.y) (e.x - s.x)) (3/10) }) ∧
    (∀ (aspect : ℝ) (lm : PoseFrame) (b : Bones) (st : MState) (j : String)
        (s e w : PLandmark),
      b.rightShoulder = none → b.rightUpperArm = some j →
      lm 0 = none → lm 13 = none →
      lm 12 = some s → lm 14 = some e → lm 16 = some w →
      (updateModelPose aspect lm b st).joints =
        Function.update st.joints j
          { rx := smoothStep (st.joints j).rx
              (jsAtan2 (-(e.y - s.y))
                (Real.sqrt ((e.x - s.x) ^ 2 + (e.z - s.z) ^ 2))) (3/10)
            ry := smoothStep (st.joints j).ry
              (jsAtan2 (-(e.x - s.x)) (e.z - s.z)) (3/10)
            rz := smoothStep (st.joints j).rz
              (jsAtan2 (e.y - s.y) (-(e.x - s.x))) (3/10) }) := by
  refine ⟨?_, ?_, ?_, ?_⟩
  · intro aspect lm b st j nose lS rS hh hn h0 h11 h12 h13 h14
    unfold updateModelPose
    rw [leftArmModelBlock_skip _ _ _ h13, rightArmModelBlock_skip _ _ _ h14,
      headOrientBlock_fallback _ _ _ j nose lS rS (by rw [hh, hn]; rfl) h0 h11 h12]
    simp [bodyPlaceBlock_joints]
  · intro aspect lm b st hh hn h13 h14
    unfold updateModelPose
    rw [leftArmModelBlock_skip _ _ _ h13, rightArmModelBlock_skip _ _ _ h14,
      headOrientBlock_none _ _ _ hh hn, bodyPlaceBlock_joints]
  · intro aspect lm b st j s e w hsh hua h0 h14 h11 h13 h15
    unfold updateModelPose
    rw [rightArmModelBlock_skip _ _ _ h14,
      leftArmModelBlock_fallback _ _ _ j s e w (by rw [hsh, hua]; rfl) h11 h13 h15,
      headOrientBlock_skip _ _ _ h0]
    simp [bodyPlaceBlock_joints]
  · intro aspect lm b st j s e w hsh hua h0 h13 h12 h14 h16
    unfold updateModelPose
    rw [rightArmModelBlock_fallback _ _ _ j s e w (by rw [hsh, hua]; rfl) h12 h14 h16,
      leftArmModelBlock_skip _ _ _ h13, headOrientBlock_skip _ _ _ h0]
    simp [bodyPlaceBlock_joints]

/-- C10 (witness): a neck-only mapping receives the head rotations on
the joint named `"neckJoint"` for a concrete head-only frame. -/
theorem claim10_witness :
    (updateModelPose 1 headOnlyModelFrame bNeckOnly mStZero).joints =
      Function.update mStZero.joints "neckJoint"
        { mStZero.joints "neckJoint" with
          ry := smoothStep (mStZero.joints "neckJoint").ry
            ((1/2 - (2/5 + 3/5) / 2) * 3) (1/5)
          rx := smoothStep (mStZero.joints "neckJoint").rx
            (-((3/10 - ((2/5 + 2/5) / 2 - 1/10)) * 2)) (1/5) } :=
  claim10_fallbacks.1 1 headOnlyModelFrame bNeckOnly mStZero "neckJoint"
    ⟨1/2, 3/10, 0⟩ ⟨2/5, 2/5, 0⟩ ⟨3/5, 2/5, 0⟩ rfl rfl rfl rfl rfl rfl rfl

end AlienAR
